import Mathlib

/-!
Shallow embedding of the classified-car-mvp backend core:
the price estimator `run_pricing` (backend/agents/pricing.py) and the
orchestrator's assembly/resolver functions (backend/app/orchestrator.py).

External collaborators (the generative text service, `json.loads`,
`train_test_split`, the fitted CatBoost regressor) are modelled as oracle
parameters; everything the repository's own code computes is translated
directly from the source.  Python floats are modelled as rationals (ℚ),
Python ints as ℤ, and Python's builtin `round` (banker's rounding,
half-to-even) as `pyRound`.
-/

/-- Python `str.lower()` restricted to the alphabets this codebase uses:
ASCII letters and the Russian (Cyrillic) block, including Ё. -/
def ruLowerChar (c : Char) : Char :=
  if 'A' ≤ c ∧ c ≤ 'Z' then Char.ofNat (c.toNat + 32)
  else if c = 'Ё' then 'ё'
  else if 0x410 ≤ c.toNat ∧ c.toNat ≤ 0x42F then Char.ofNat (c.toNat + 0x20)
  else c

def ruLower (s : String) : String := String.mk (s.toList.map ruLowerChar)

/-- Whether `needle` occurs as a contiguous run at the head of `hay`. -/
def headRun : List Char → List Char → Bool
  | [], _ => true
  | _ :: _, [] => false
  | a :: as, b :: bs => a = b && headRun as bs

/-- Python's substring test `needle in hay` (empty needle always matches). -/
def hasRun (needle : List Char) : List Char → Bool
  | [] => headRun needle []
  | c :: rest => headRun needle (c :: rest) || hasRun needle rest

/-- Python `needle in hay` on strings. -/
def strContains (hay needle : String) : Bool := hasRun needle.toList hay.toList

/-- Python's whitespace set for `str.strip()` (the ASCII part). -/
def isPySpace (c : Char) : Bool :=
  c = ' ' || c = '\t' || c = '\n' || c = '\r' || c = '\x0b' || c = '\x0c'

/-- Python `str.strip()`. -/
def pyStrip (s : String) : String :=
  String.mk (((s.toList.dropWhile isPySpace).reverse.dropWhile isPySpace).reverse)

/-- Python slicing `s[n:]` (by code points). -/
def strDropN (s : String) (n : ℕ) : String := String.mk (s.toList.drop n)

/-- Python slicing `s[:-n]` (by code points). -/
def strDropRightN (s : String) (n : ℕ) : String :=
  String.mk (s.toList.take (s.toList.length - n))

/-- Python `s.startswith(p)`. -/
def strStartsWith (s p : String) : Bool := headRun p.toList s.toList

/-- Python `s.endswith(p)`. -/
def strEndsWith (s p : String) : Bool := headRun p.toList.reverse s.toList.reverse

/-! Mathlib's `+ - * /` on ℚ are `@[irreducible]`, so the embedding uses
explicitly computable equivalents (`Rat.divInt`-based) with proved bridges
to the standard operations; `decide` can then evaluate the pipeline on
concrete inputs. -/

def qAdd (a b : ℚ) : ℚ :=
  Rat.divInt (a.num * (b.den : ℤ) + b.num * (a.den : ℤ)) ((a.den : ℤ) * (b.den : ℤ))

def qSub (a b : ℚ) : ℚ :=
  Rat.divInt (a.num * (b.den : ℤ) - b.num * (a.den : ℤ)) ((a.den : ℤ) * (b.den : ℤ))

def qDiv (a b : ℚ) : ℚ := Rat.divInt (a.num * (b.den : ℤ)) ((a.den : ℤ) * b.num)

def qAbs (a : ℚ) : ℚ := if a < 0 then -a else a

def qSum (l : List ℚ) : ℚ := l.foldr qAdd 0

/-- Python 3 builtin `round(x)` on a float: round half to even (banker's
rounding), returning an int. -/
def pyRound (q : ℚ) : ℤ :=
  let f := Rat.floor q
  let r := qSub q (f : ℚ)
  if r < mkRat 1 2 then f
  else if mkRat 1 2 < r then f + 1
  else if f % 2 = 0 then f else f + 1

/-- Python `int(float)`: truncation toward zero (used for `astype(int)`). -/
def ratTrunc (q : ℚ) : ℤ := if 0 ≤ q then Rat.floor q else -Rat.floor (-q)

def digitsVal (l : List Char) : ℕ := l.foldl (fun a c => a * 10 + (c.toNat - 48)) 0

/-- Numeric-string parsing as done by Python `float()` / pandas `to_numeric`:
optional sign, decimal digits with an optional fractional part. -/
def parseNumQ (s : String) : Option ℚ :=
  let t := (pyStrip s).toList
  let (neg, t) :=
    match t with
    | '-' :: r => (true, r)
    | '+' :: r => (false, r)
    | r => (false, r)
  let ip := t.takeWhile (· ≠ '.')
  let rest := t.dropWhile (· ≠ '.')
  let mk : ℚ → Option ℚ := fun q => some (if neg then -q else q)
  match rest with
  | [] =>
    if ip ≠ [] ∧ ip.all (·.isDigit) then mk (digitsVal ip) else none
  | '.' :: fp =>
    if (ip ≠ [] ∨ fp ≠ []) ∧ ip.all (·.isDigit) ∧ fp.all (·.isDigit) then
      mk (qAdd (digitsVal ip : ℚ) (mkRat (digitsVal fp) (10 ^ fp.length)))
    else none
  | _ => none

/-- sklearn `mean_absolute_error(y_true, y_pred)`: mean of absolute
differences over the paired entries. -/
def meanAbsoluteError (yTrue yPred : List ℚ) : ℚ :=
  let ps := yTrue.zip yPred
  qDiv (qSum (ps.map fun p => qAbs (qSub p.1 p.2))) ((ps.length : ℕ) : ℚ)

/-! ### A small model of Python runtime values

The agents exchange free-form dictionaries; `_decide_status` and
`_confidence_warnings` consume them with `.get`-based access.  `PyVal`
models the JSON-ish Python values that flow through those functions. -/

inductive PyVal where
  | vNone
  | vBool (b : Bool)
  | vInt (n : ℤ)
  | vFloat (q : ℚ)
  | vStr (s : String)
  | vList (xs : List PyVal)
  | vDict (kvs : List (String × PyVal))

/-- Python truthiness. -/
def truthy : PyVal → Bool
  | .vNone => false
  | .vBool b => b
  | .vInt n => n != 0
  | .vFloat q => q != 0
  | .vStr s => s != ""
  | .vList xs => !xs.isEmpty
  | .vDict kvs => !kvs.isEmpty

mutual
/-- Python `repr` (approximate; str escaping inside quotes is not modelled). -/
def pyRepr : PyVal → String
  | .vNone => "None"
  | .vBool true => "True"
  | .vBool false => "False"
  | .vInt n => toString n
  | .vFloat q => toString q
  | .vStr s => "\x27" ++ s ++ "\x27"
  | .vList xs => "[" ++ String.intercalate ", " (pyReprL xs) ++ "]"
  | .vDict kvs => "\x7b" ++ String.intercalate ", " (pyReprD kvs) ++ "\x7d"

def pyReprL : List PyVal → List String
  | [] => []
  | x :: xs => pyRepr x :: pyReprL xs

def pyReprD : List (String × PyVal) → List String
  | [] => []
  | (k, v) :: xs => ("\x27" ++ k ++ "\x27: " ++ pyRepr v) :: pyReprD xs
end

/-- Python `str(x)`. -/
def pyStr : PyVal → String
  | .vStr s => s
  | v => pyRepr v

/-- Python `d.get(k)` on a dict's entry list (absent key yields `None`). -/
def dGet (kvs : List (String × PyVal)) (k : String) : PyVal :=
  match kvs.lookup k with
  | some v => v
  | none => .vNone

/-- Total variant of attribute access `x.get(k)`: `None` when `x` is not a
dict (the raising behaviour is modelled at each use site instead). -/
def pyGetD (v : PyVal) (k : String) : PyVal :=
  match v with
  | .vDict kvs => dGet kvs k
  | _ => .vNone

/-- Python `a or b`. -/
def pyOr (a b : PyVal) : PyVal := if truthy a then a else b

/-- Python `float(x)` (None / lists / dicts raise, modelled as `none`). -/
def pyToFloat : PyVal → Option ℚ
  | .vInt n => some (n : ℚ)
  | .vFloat q => some q
  | .vBool b => some (if b then 1 else 0)
  | .vStr s => parseNumQ s
  | _ => none

/-! ### Price estimator (backend/agents/pricing.py)

Inputs are typed as in `run_pricing`'s signature (`int | None`,
`float | None`, strings).  Remote/library calls are oracle fields:
`gen i` models the i-th `client.chat.completions.create` call (raised
exception or returned message content), `loads` models `json.loads` on the
extracted bracket-balanced slice (which always starts with `[`, hence an
array or a parse failure), `splitTestY` models the `train_test_split`
(random_state=42) selection of the held-out target values, and `predTest` /
`predictSubject` model the fitted CatBoost regressor's predictions. -/

/-- One cell value of a generated synthetic-data row (a JSON scalar). -/
inductive GVal where
  | gNull
  | gBool (b : Bool)
  | gInt (n : ℤ)
  | gRat (q : ℚ)
  | gStr (s : String)
deriving DecidableEq

/-- One generated row: a JSON object, i.e. field-name/value pairs. -/
abbrev GenRow := List (String × GVal)

/-- pandas `to_numeric(·, errors="coerce")` on one cell. -/
def toNumeric : GVal → Option ℚ
  | .gInt n => some (n : ℚ)
  | .gRat q => some q
  | .gBool b => some (if b then 1 else 0)
  | .gStr s => parseNumQ s
  | .gNull => none

/-- A defect entry passed to `run_pricing`; only its `severity` key is read
(`d.get("severity")`, `None` when absent). -/
structure DefectIn where
  severity : Option String
deriving DecidableEq

/-- The arguments of `run_pricing` (pricing.py lines 125-139). -/
structure PricingInput where
  brand : String
  model : String
  body_type : String
  color : String
  steering_wheel_position : String
  year : Option ℤ
  engine_capacity : Option ℚ
  transmission : String
  drive_type : String
  mileage : Option ℤ
  damage_flag : String
  visual_condition_score : Option ℚ
  inspection_reliability_score : Option ℚ
  defects : List DefectIn
deriving DecidableEq

/-- Model of `_severity_ru` (pricing.py lines 146-154). -/
def severityRu (sev : String) : String :=
  let s := ruLower (pyStrip sev)
  if s = "слабая" ∨ s = "weak" then "слабая"
  else if s = "умеренная" ∨ s = "moderate" then "умеренная"
  else if s = "сильная" ∨ s = "strong" then "сильная"
  else ""

/-- The subject-record dict `row` built in `run_pricing` (lines 158-176).
`int(year)` / `float(engine_capacity)` on already-typed values are
identities, so the fields carry the typed values. -/
structure PricingRow where
  brand : String
  model : String
  body_type : String
  color : String
  steering_wheel_position : String
  transmission : String
  drive_type : String
  damage_flag : String
  year : Option ℤ
  mileage : Option ℤ
  engine_capacity : Option ℚ
  visual_condition_score : Option ℚ
  inspection_reliability_score : Option ℚ
  defects_cnt : ℕ
  defects_severity_weak_cnt : ℕ
  defects_severity_moderate_cnt : ℕ
  defects_severity_strong_cnt : ℕ
deriving DecidableEq

def mkRow (inp : PricingInput) : PricingRow :=
  let weak := inp.defects.countP fun d => severityRu (d.severity.getD "") == "слабая"
  let moderate := inp.defects.countP fun d => severityRu (d.severity.getD "") == "умеренная"
  let strong := inp.defects.countP fun d => severityRu (d.severity.getD "") == "сильная"
  { brand := pyStrip inp.brand
    model := pyStrip inp.model
    body_type := pyStrip inp.body_type
    color := pyStrip inp.color
    steering_wheel_position := pyStrip inp.steering_wheel_position
    transmission := pyStrip inp.transmission
    drive_type := pyStrip inp.drive_type
    damage_flag := pyStrip inp.damage_flag
    year := inp.year
    mileage := inp.mileage
    engine_capacity := inp.engine_capacity
    visual_condition_score := inp.visual_condition_score
    inspection_reliability_score := inp.inspection_reliability_score
    defects_cnt := weak + moderate + strong
    defects_severity_weak_cnt := weak
    defects_severity_moderate_cnt := moderate
    defects_severity_strong_cnt := strong }

/-- The list `REQUIRED_FOR_PRICING` (pricing.py lines 24-27). -/
def REQUIRED_FOR_PRICING : List String :=
  ["brand", "model", "body_type", "color", "steering_wheel_position",
   "year", "engine_capacity", "transmission", "drive_type", "mileage", "damage_flag"]

/-- The list `FEATURE_COLUMNS` (pricing.py lines 16-21). -/
def FEATURE_COLUMNS : List String :=
  ["body_type", "color", "steering_wheel_position", "year", "engine_capacity",
   "transmission", "drive_type", "mileage", "damage_flag",
   "visual_condition_score", "inspection_reliability_score",
   "defects_cnt", "defects_severity_weak_cnt", "defects_severity_moderate_cnt",
   "defects_severity_strong_cnt"]

/-- The list `CAT_FEATURES` (pricing.py line 15). -/
def CAT_FEATURES : List String :=
  ["color", "steering_wheel_position", "body_type", "transmission", "drive_type", "damage_flag"]

/-- Model of `_check_missing` (pricing.py lines 81-122), applied to the subject row.
`int(...)`/`float(...)` on the already-typed `year`/`engine_capacity`/
`mileage` values cannot fail, so those checks reduce to `is None`. -/
def checkMissing (row : PricingRow) : List String :=
  (if pyStrip row.brand == "" then ["brand"] else []) ++
  (if pyStrip row.model == "" then ["model"] else []) ++
  (if pyStrip row.body_type == "" then ["body_type"] else []) ++
  (if pyStrip row.color == "" then ["color"] else []) ++
  (if !(pyStrip row.steering_wheel_position == "left" || pyStrip row.steering_wheel_position == "right")
    then ["steering_wheel_position"] else []) ++
  (if row.year.isNone then ["year"] else []) ++
  (if row.engine_capacity.isNone then ["engine_capacity"] else []) ++
  (if pyStrip row.transmission == "" then ["transmission"] else []) ++
  (if pyStrip row.drive_type == "" then ["drive_type"] else []) ++
  (if row.mileage.isNone then ["mileage"] else []) ++
  (if pyStrip row.damage_flag == "" then ["damage_flag"] else [])

/-- The per-field emptiness/validity test of `_check_missing`, indexed by the
required field's name (false for names outside the checked set). -/
def fieldIsMissing (row : PricingRow) (f : String) : Bool :=
  if f = "brand" then pyStrip row.brand == ""
  else if f = "model" then pyStrip row.model == ""
  else if f = "body_type" then pyStrip row.body_type == ""
  else if f = "color" then pyStrip row.color == ""
  else if f = "steering_wheel_position" then
    !(pyStrip row.steering_wheel_position == "left" || pyStrip row.steering_wheel_position == "right")
  else if f = "year" then row.year.isNone
  else if f = "engine_capacity" then row.engine_capacity.isNone
  else if f = "transmission" then pyStrip row.transmission == ""
  else if f = "drive_type" then pyStrip row.drive_type == ""
  else if f = "mileage" then row.mileage.isNone
  else if f = "damage_flag" then pyStrip row.damage_flag == ""
  else false

/-- The markdown code-fence stripping of `run_pricing` (pricing.py lines
204-210).  Since the string is guaranteed to end with three backticks when
the final branch runs, the `rfind`-based slice removes exactly that suffix. -/
def stripCodeFence (raw : String) : String :=
  if strStartsWith raw "```" then
    let r1 := if strStartsWith raw "```json" then pyStrip (strDropN raw 7)
      else pyStrip (strDropN raw 3)
    if strEndsWith r1 "```" then pyStrip (strDropRightN r1 3) else r1
  else raw

/-- The bracket-depth scan of `_extract_json_array` (pricing.py lines 70-77),
run from the first `[`; returns the length of the balanced slice. -/
def findClose : List Char → ℤ → ℕ → Option ℕ
  | [], _, _ => none
  | ch :: rest, depth, i =>
    if ch = '[' ∨ ch = '\x7b' then findClose rest (depth + 1) (i + 1)
    else if ch = ']' ∨ ch = '\x7d' then
      if depth - 1 = 0 then some (i + 1) else findClose rest (depth - 1) (i + 1)
    else findClose rest depth (i + 1)

/-- Model of `_extract_json_array` (pricing.py lines 65-78): `loads` is `json.loads`
on the extracted slice; `.error ()` covers both `ValueError` ("No JSON
array" / "Unbalanced brackets") and `json.JSONDecodeError` — the caller
handles the two identically. -/
def extractJsonArray (loads : String → Except Unit (List GenRow)) (text : String) :
    Except Unit (List GenRow) :=
  let cs := (pyStrip text).toList
  match cs.findIdx? (· = '[') with
  | none => .error ()
  | some start =>
    match findClose (cs.drop start) 0 0 with
    | some len => loads (String.mk ((cs.drop start).take len))
    | none => .error ()

/-- Outcome of one iteration of the generation `try` block: parsed rows, a
`ValueError`/`JSONDecodeError` (first `except`), or any other exception
(second `except`, carrying `str(e)`). -/
inductive AttemptRes where
  | rows (rs : List GenRow)
  | parseErr
  | exn (msg : String)

/-- External services consumed by one `run_pricing` call. -/
structure PricingOracle where
  gen : ℕ → Except String String
  loads : String → Except Unit (List GenRow)
  splitTestY : List ℤ → List ℤ
  predTest : List ℚ
  predictSubject : ℚ

/-- One generation attempt (pricing.py lines 196-213): remote call, strip of
the content, markdown unfencing, empty-content fallback to `"[]"`, and JSON
array extraction. -/
def runAttempt (o : PricingOracle) (i : ℕ) : AttemptRes :=
  match o.gen i with
  | .error msg => .exn msg
  | .ok content =>
    let raw := stripCodeFence (pyStrip content)
    let raw := if raw = "" then "[]" else raw
    match extractJsonArray o.loads raw with
    | .ok rs => .rows rs
    | .error _ => .parseErr

/-- The dict returned by `run_pricing`.  `reason`/`error` are the optional
`_reason`/`_error` keys; a `none` models an absent key. -/
structure Estimate where
  min_price : Option ℤ := none
  max_price : Option ℤ := none
  suggested_price : Option ℤ := none
  mae : Option ℚ := none
  missing_fields : List String := []
  reason : Option String := none
  error : Option String := none
  generated_rows : Option (List GenRow) := none
deriving DecidableEq

/-- Test `"price" in df.columns` for `df = pd.DataFrame(rows)`: the columns are
the union of the rows' keys. -/
def dfHasCol (rows : List GenRow) (col : String) : Bool :=
  rows.any fun r => (r.lookup col).isSome

/-- Model of `y = pd.to_numeric(df["price"], errors="coerce").dropna().astype(int)`
(pricing.py line 251): rows without a usable price value are dropped, the
rest are truncated to int. -/
def priceY (rows : List GenRow) : List ℤ :=
  rows.filterMap fun r => ((r.lookup "price").bind toNumeric).map ratTrunc

/-- The training-and-scoring tail of `run_pricing` (pricing.py lines
243-283), reached once the loop holds an accepted batch.  The split, fit and
predictions come from the oracle; the held-out MAE is computed from them. -/
def trainAndScore (o : PricingOracle) (rows : List GenRow) (callLog : List ℚ) :
    Estimate × List ℚ :=
  if ¬ dfHasCol rows "price" ∨ rows.length < 10 then
    ({ reason := some "no price column or too few rows" }, callLog)
  else
    let y := priceY rows
    if y.length < 10 then
      ({ reason := some "too few valid prices" }, callLog)
    else
      let yTest := o.splitTestY y
      let mae := meanAbsoluteError (yTest.map fun n => (n : ℚ)) o.predTest
      let predicted := [o.predictSubject]
      match predicted.head? with
      | none => ({ missing_fields := [] }, callLog)
      | some p =>
        let suggested := pyRound p
        let minP := max 0 (pyRound (qSub (suggested : ℚ) mae))
        let maxP := pyRound (qAdd (suggested : ℚ) mae)
        ({ min_price := some minP
           max_price := some maxP
           suggested_price := some suggested
           mae := some ((pyRound mae : ℤ) : ℚ)
           missing_fields := []
           generated_rows := some rows }, callLog)

/-- The post-loop guard (pricing.py lines 241-242) followed by the training
tail; both the `break` path and the fallthrough path go through it. -/
def afterLoop (o : PricingOracle) (rows : List GenRow) (lastError : String)
    (callLog : List ℚ) : Estimate × List ℚ :=
  if rows.isEmpty ∨ rows.length < 10 then ({ reason := some lastError }, callLog)
  else trainAndScore o rows callLog

/-- The second loop iteration (`attempt == 1`): a parse failure or other
exception now returns directly from inside the `except` blocks (pricing.py
lines 219-227 and 231-239); a parsed batch overwrites `rows` and falls
through to the post-loop guard. -/
def attemptTwo (o : PricingOracle) (lastError : String) : Estimate × List ℚ :=
  let callLog : List ℚ := [mkRat 7 10, mkRat 9 10]
  match runAttempt o 1 with
  | .rows rs =>
    if ¬ rs.isEmpty ∧ 10 ≤ rs.length then afterLoop o rs lastError callLog
    else afterLoop o rs (if rs.isEmpty then "empty data" else "too few rows") callLog
  | .parseErr =>
    ({ missing_fields := [], reason := some "failed to parse synthetic data" }, callLog)
  | .exn m => ({ missing_fields := [], error := some m }, callLog)

/-- Model of `run_pricing` (pricing.py lines 125-283) together with the trace of
generation calls it issues (one sampling temperature per call: 0.7 for the
first attempt, 0.9 for the retry). -/
def runPricingTrace (inp : PricingInput) (o : PricingOracle) : Estimate × List ℚ :=
  let row := mkRow inp
  let missing := checkMissing row
  if missing ≠ [] then
    ({ min_price := none, max_price := none, suggested_price := none, mae := none
       missing_fields := missing }, [])
  else
    match runAttempt o 0 with
    | .rows rs =>
      if ¬ rs.isEmpty ∧ 10 ≤ rs.length then afterLoop o rs "empty data" [mkRat 7 10]
      else attemptTwo o (if rs.isEmpty then "empty data" else "too few rows")
    | .parseErr => attemptTwo o "failed to parse synthetic data"
    | .exn m => attemptTwo o m

def run_pricing (inp : PricingInput) (o : PricingOracle) : Estimate :=
  (runPricingTrace inp o).1

/-- The column back-fill value of pricing.py line 250:
`row.get(col, 0 if "cnt" in col or "score" in col else "")`.  The subject
row's entry for a feature column, rendered as the Python value placed into
the frame. -/
def rowVal (row : PricingRow) (col : String) : Option PyVal :=
  let optInt : Option ℤ → PyVal := fun v => match v with | some n => .vInt n | none => .vNone
  let optQ : Option ℚ → PyVal := fun v => match v with | some q => .vFloat q | none => .vNone
  if col = "brand" then some (.vStr row.brand)
  else if col = "model" then some (.vStr row.model)
  else if col = "body_type" then some (.vStr row.body_type)
  else if col = "color" then some (.vStr row.color)
  else if col = "steering_wheel_position" then some (.vStr row.steering_wheel_position)
  else if col = "year" then some (optInt row.year)
  else if col = "engine_capacity" then some (optQ row.engine_capacity)
  else if col = "transmission" then some (.vStr row.transmission)
  else if col = "drive_type" then some (.vStr row.drive_type)
  else if col = "mileage" then some (optInt row.mileage)
  else if col = "damage_flag" then some (.vStr row.damage_flag)
  else if col = "visual_condition_score" then some (optQ row.visual_condition_score)
  else if col = "inspection_reliability_score" then some (optQ row.inspection_reliability_score)
  else if col = "defects_cnt" then some (.vInt row.defects_cnt)
  else if col = "defects_severity_weak_cnt" then some (.vInt row.defects_severity_weak_cnt)
  else if col = "defects_severity_moderate_cnt" then some (.vInt row.defects_severity_moderate_cnt)
  else if col = "defects_severity_strong_cnt" then some (.vInt row.defects_severity_strong_cnt)
  else none

def backfillValue (row : PricingRow) (col : String) : PyVal :=
  (rowVal row col).getD
    (if strContains col "cnt" || strContains col "score" then .vInt 0 else .vStr "")

/-- A fully-filled subject record (all required fields present). -/
def sampleInput : PricingInput :=
  { brand := "Toyota", model := "Camry", body_type := "седан", color := "red"
    steering_wheel_position := "left", year := some 2015, engine_capacity := some 2
    transmission := "automatic", drive_type := "fwd", mileage := some 100000
    damage_flag := "не битый", visual_condition_score := some (mkRat 4 5)
    inspection_reliability_score := some (mkRat 7 10), defects := [] }

/-- The same record with `mileage=None`. -/
def sampleInputNoMileage : PricingInput := { sampleInput with mileage := none }

/-- A ten-row generated corpus carrying only a price column
(prices 100 ×8, then 0, then 1). -/
def sampleRows : List GenRow :=
  [[("price", .gInt 100)], [("price", .gInt 100)], [("price", .gInt 100)],
   [("price", .gInt 100)], [("price", .gInt 100)], [("price", .gInt 100)],
   [("price", .gInt 100)], [("price", .gInt 100)], [("price", .gInt 0)],
   [("price", .gInt 1)]]

/-- Oracle: the service answers `[]` (whose extracted array parses to
`sampleRows`), the held-out fold is the last two targets, the fitted model
predicts 0 on both held-out rows (MAE ½) and 101 for the subject. -/
def sampleOracle : PricingOracle :=
  { gen := fun _ => .ok "[]"
    loads := fun _ => .ok sampleRows
    splitTestY := fun l => l.drop 8
    predTest := [0, 0]
    predictSubject := 101 }

/-- Same oracle, but the regressor extrapolates to a negative price. -/
def sampleOracleNeg : PricingOracle := { sampleOracle with predictSubject := -5 }

/-- Oracle whose generation calls always raise. -/
def failingOracle : PricingOracle :=
  { gen := fun _ => .error "boom"
    loads := fun _ => .error ()
    splitTestY := fun l => l
    predTest := []
    predictSubject := 0 }

/-- An accepted generation attempt: parsed rows, non-empty, at least 10. -/
def attemptOK (r : AttemptRes) : Bool :=
  match r with
  | .rows rs => !rs.isEmpty && decide (10 ≤ rs.length)
  | .parseErr => false
  | .exn _ => false

/-! ### Orchestrator (backend/app/orchestrator.py) and response schema
(backend/app/schemas.py)

The two phase-1 agents (`run_vision`, `run_classification`) and the
phase-2 barrier (`run_pricing` + `run_description` submitted to a thread
pool) are external at this boundary; their outputs/outcome are oracle
fields.  Dict-shaped agent outputs are `PyVal` dictionaries. -/

structure CarIdentity where
  brand : String := ""
  model : String := ""
  generation : String := ""
  year : Option ℤ := none
  body_type : String := ""
  color : String := ""
  steering_wheel_position : String := ""
  engine_capacity : Option ℚ := none
  transmission : String := ""
  drive_type : String := ""
  mileage : Option ℤ := none
  damage_flag : String := ""
deriving DecidableEq

structure DefectItem where
  type : String := "scratch"
  severity : String := "weak"
  location : String := ""
  body_part : String := ""
deriving DecidableEq

structure VisualCondition where
  overall_score : ℚ := 0
  defects : List DefectItem := []
deriving DecidableEq

structure TechnicalAssumptions where
  accident_signs : Bool := false
  repaint_probability : ℚ := 0
deriving DecidableEq

structure PriceEstimation where
  min_price : Option ℤ := none
  max_price : Option ℤ := none
  suggested_price : Option ℤ := none
  mae : Option ℚ := none
  missing_fields : List String := []
  error_message : Option String := none
  generated_rows : Option (List GenRow) := none
deriving DecidableEq

structure ConfidenceWarning where
  field : String := ""
  confidence : String := "low"
  reason : String := ""
deriving DecidableEq

structure AnalysisResponse where
  car_identity : CarIdentity := {}
  visual_condition : VisualCondition := {}
  technical_assumptions : TechnicalAssumptions := {}
  price_estimation : PriceEstimation := {}
  generated_description : String := ""
  confidence_warnings : List ConfidenceWarning := []
  status : String := "ok"
  vision_result : PyVal := .vDict []

/-- The dict `SEVERITY_MAP` (schemas.py line 95). -/
def SEVERITY_MAP : List (String × String) :=
  [("слабая", "weak"), ("умеренная", "moderate"), ("сильная", "strong")]

/-- The dict `DEFECT_TYPE_MAP` (schemas.py lines 97-106). -/
def DEFECT_TYPE_MAP : List (String × String) :=
  [("царапина", "scratch"), ("вмятина", "dent"), ("скол", "chip"), ("коррозия", "corrosion"),
   ("загрязнение", "chip"), ("окрашена", "painted"), ("перекрашена", "painted"),
   ("заменена", "replaced")]

/-- Model of `_normalize_defect_type` (orchestrator.py lines 25-44).  The dict loop
checks `ru in t_lower or t_lower in ru` in insertion order; an empty
`t_lower` therefore matches the first entry already. -/
def normalizeDefectType (t : String) : String :=
  let tl := ruLower (pyStrip t)
  match DEFECT_TYPE_MAP.find? (fun kv => strContains tl kv.1 || strContains kv.1 tl) with
  | some kv => kv.2
  | none =>
    if tl == "" then "scratch"
    else if strContains tl "царапин" then "scratch"
    else if strContains tl "вмятин" || strContains tl "деформац" then "dent"
    else if strContains tl "скол" then "chip"
    else if strContains tl "коррози" || strContains tl "ржавчин" then "corrosion"
    else if strContains tl "окраш" || strContains tl "перекраш" then "painted"
    else if strContains tl "замен" then "replaced"
    else "scratch"

/-- One iteration of the defect-mapping loop (orchestrator.py lines 52-72):
non-dict entries are skipped; the `try` body cannot raise for dict entries,
so no entry is dropped by the `except`. -/
def mapDefectOne (d : PyVal) : Option DefectItem :=
  match d with
  | .vDict dd =>
    let severity_ru := ruLower (pyStrip (pyStr (pyOr (dGet dd "severity") (.vStr "слабая"))))
    let severity := (((SEVERITY_MAP.find? (·.1 == severity_ru)).map (·.2)).getD "weak")
    let dt := normalizeDefectType (pyStr (pyOr (dGet dd "type") (.vStr "")))
    let dt := if dt == "scratch" || dt == "dent" || dt == "chip" || dt == "corrosion"
        || dt == "replaced" || dt == "painted" then dt else "scratch"
    let body_part := pyStrip (pyStr (pyOr (dGet dd "body_part") (.vStr "")))
    let location := pyStrip (pyStr (pyOr (dGet dd "location") (.vStr "")))
    some { type := dt, severity := severity, location := location, body_part := body_part }
  | _ => none

/-- Model of `_map_defects` (orchestrator.py lines 47-73). -/
def mapDefects (vd : List (String × PyVal)) : List DefectItem :=
  match pyOr (dGet vd "defects") (.vList []) with
  | .vList ds => ds.filterMap mapDefectOne
  | _ => []

/-- Model of `safe_str` (orchestrator.py lines 154-157). -/
def safe_str (v : PyVal) : String :=
  match v with
  | .vNone => ""
  | x => pyStrip (pyStr x)

/-- Model of `damage_flag_str` (orchestrator.py line 159). -/
def damageFlagStr (vd : List (String × PyVal)) : String :=
  safe_str (pyOr (dGet vd "damage_flag") (.vStr "не определено"))

/-- The `CarIdentity` built from the phase-1 outputs (orchestrator.py lines
160-173). -/
def mkCarIdentity (cd vd : List (String × PyVal)) : CarIdentity :=
  { brand := safe_str (dGet cd "brand")
    model := safe_str (dGet cd "model")
    generation := ""
    year := none
    body_type := safe_str (dGet cd "body_type")
    color := safe_str (dGet cd "color")
    steering_wheel_position := safe_str (dGet cd "steering_wheel_position")
    engine_capacity := none
    transmission := safe_str (dGet cd "transmission")
    drive_type := ""
    mileage := none
    damage_flag := damageFlagStr vd }

/-- Model of `visual_score` (orchestrator.py lines 174-177): `float(x)` with
`ValueError`/`TypeError` falling back to 0.0. -/
def visualScore (vd : List (String × PyVal)) : ℚ :=
  match pyToFloat (pyOr (dGet vd "visual_condition_score") (.vFloat 0)) with
  | some q => q
  | none => 0

def mkVisualCondition (vd : List (String × PyVal)) : VisualCondition :=
  { overall_score := visualScore vd, defects := mapDefects vd }

/-- orchestrator.py lines 182-185. -/
def mkTechnicalAssumptions (vd : List (String × PyVal)) : TechnicalAssumptions :=
  { accident_signs := ruLower (damageFlagStr vd) == "битый", repaint_probability := 0 }

/-- Model of `_decide_status` (orchestrator.py lines 106-122).  `.get` on a non-dict
raises `AttributeError`, which the surrounding `except` turns into
`"error"`; for dict inputs nothing in the body can raise. -/
def _decide_status (vision classification : PyVal) : String :=
  match vision with
  | .vDict vd =>
    if truthy (dGet vd "_error") || truthy (dGet vd "_parse_error") then "error"
    else
      match classification with
      | .vDict cd =>
        if truthy (dGet cd "_error") || truthy (dGet cd "_parse_error") then "error"
        else
          let raw_desc := ruLower (pyStr (pyOr (dGet vd "raw_text_description") (.vStr "")))
          if strContains raw_desc "анализ невозможен"
              || strContains raw_desc "не содержит автомобиль"
              || strContains raw_desc "не соответствует задаче" then "needs_user_input"
          else
            let status := pyStr (pyOr (dGet cd "status") (.vStr ""))
            if status == "failed" && truthy (dGet cd "failure_reason") then "needs_user_input"
            else if !truthy (dGet cd "brand") && !truthy (dGet cd "model") then
              "needs_user_input"
            else "ok"
      | _ => "error"
  | _ => "error"

/-- The four warnings of `_confidence_warnings` (orchestrator.py 76-103). -/
def warnLowClassification : ConfidenceWarning :=
  { field := "model", confidence := "low", reason := "Низкая уверенность визуальной классификации" }

def warnNoBrandModel : ConfidenceWarning :=
  { field := "model", confidence := "low", reason := "Марка или модель не определены по фото" }

def warnLowVisibility : ConfidenceWarning :=
  { field := "visual_condition", confidence := "medium", reason := "Ограниченная видимость на фото" }

def warnNoPrice : ConfidenceWarning :=
  { field := "price_estimation", confidence := "low", reason := "Недостаточно данных для оценки цены" }

/-- Python `x == "low"` (true only for the equal string). -/
def isLowStr (v : PyVal) : Bool :=
  match v with
  | .vStr s => s == "low"
  | _ => false

/-- Condition of the first warning (orchestrator.py lines 83-84). -/
def condLowClassification (cd : List (String × PyVal)) : Bool :=
  match pyOr (dGet cd "classification_confidence") (.vDict []) with
  | .vDict conf => isLowStr (dGet conf "category") || isLowStr (dGet conf "subcategory")
  | _ => false

/-- Condition of the second warning (orchestrator.py line 88). -/
def condNoBrandModel (cd : List (String × PyVal)) : Bool :=
  !truthy (dGet cd "brand") || !truthy (dGet cd "model")

/-- Condition of the third warning (orchestrator.py lines 92-93):
`isinstance(insp, (int, float))` also admits `bool`. -/
def condLowInspection (vd : List (String × PyVal)) : Bool :=
  match dGet vd "inspection_reliability_score" with
  | .vInt n => decide ((n : ℚ) < mkRat 3 5)
  | .vFloat q => decide (q < mkRat 3 5)
  | .vBool b => decide ((if b then (1 : ℚ) else 0) < mkRat 3 5)
  | _ => false

/-- Condition of the fourth warning (orchestrator.py line 97). -/
def condNoPrice (pd : List (String × PyVal)) : Bool :=
  (match dGet pd "suggested_price" with
   | .vNone => true
   | _ => false) &&
  (truthy (dGet pd "missing_fields") || truthy (dGet pd "_error") || truthy (dGet pd "_reason"))

/-- Model of `_confidence_warnings` (orchestrator.py lines 76-103).  All four
appends sit in ONE `try`; `.get` on a non-dict argument raises at that
point and the `except` returns the warnings accumulated so far.  The raise
points are the first access of `classification`, of `vision`, and of
`price_est` respectively; for dict arguments nothing can raise. -/
def _confidence_warnings (classification vision price_est : PyVal) : List ConfidenceWarning :=
  match classification with
  | .vDict cd =>
    let w12 := (if condLowClassification cd then [warnLowClassification] else []) ++
      (if condNoBrandModel cd then [warnNoBrandModel] else [])
    match vision with
    | .vDict vd =>
      let w3 := if condLowInspection vd then [warnLowVisibility] else []
      match price_est with
      | .vDict pd => w12 ++ w3 ++ (if condNoPrice pd then [warnNoPrice] else [])
      | _ => w12 ++ w3
    | _ => w12
  | _ => []

/-- The warnings that apply to a triple of (possibly non-dict) inputs, with
`.get` read totally (`None` for non-dicts): the list `_confidence_warnings`
would produce if no access could fault. -/
def applicableWarnings (classification vision price_est : PyVal) : List ConfidenceWarning :=
  (if condLowClassification (match classification with | .vDict cd => cd | _ => [])
    then [warnLowClassification] else []) ++
  (if condNoBrandModel (match classification with | .vDict cd => cd | _ => [])
    then [warnNoBrandModel] else []) ++
  (if condLowInspection (match vision with | .vDict vd => vd | _ => [])
    then [warnLowVisibility] else []) ++
  (if condNoPrice (match price_est with | .vDict pd => pd | _ => [])
    then [warnNoPrice] else [])

/-- Python truthiness of an optional string (`None` and `""` are falsy). -/
def otruthy : Option String → Bool
  | some s => s != ""
  | none => false

/-- The estimate dict as seen through `.get` by `_confidence_warnings`:
the keys `run_pricing` actually writes, with `_reason`/`_error` present
only when set (`generated_rows` is never read there and is omitted). -/
def estToPyVal (e : Estimate) : PyVal :=
  .vDict
    ([("min_price", match e.min_price with | some n => .vInt n | none => .vNone),
      ("max_price", match e.max_price with | some n => .vInt n | none => .vNone),
      ("suggested_price", match e.suggested_price with | some n => .vInt n | none => .vNone),
      ("mae", match e.mae with | some q => .vFloat q | none => .vNone),
      ("missing_fields", .vList (e.missing_fields.map .vStr))] ++
     (match e.reason with | some r => [("_reason", .vStr r)] | none => []) ++
     (match e.error with | some m => [("_error", .vStr m)] | none => []))

/-- The `PriceEstimation` assembly (orchestrator.py lines 236-261).
`safe_int`/`safe_float` on the already-typed optional values are
identities; `missing_fields` is always a list here and `_error` wins over
`_reason` in `err_msg`, which is kept only when truthy. -/
def mapPriceEstimation (e : Estimate) : PriceEstimation :=
  let err_msg := if otruthy e.error then e.error else e.reason
  { min_price := e.min_price
    max_price := e.max_price
    suggested_price := e.suggested_price
    mae := e.mae
    missing_fields := e.missing_fields
    error_message := if otruthy err_msg then err_msg else none
    generated_rows := e.generated_rows }

/-- The price estimate substituted when the phase-2 barrier raises
(orchestrator.py line 233): `{"_error": str(e)}`. -/
def errEstimate (msg : String) : Estimate :=
  { min_price := none, max_price := none, suggested_price := none, mae := none,
    missing_fields := [], error := some msg }

/-- External collaborators of `analyze_images`: base64 encoding of the
image bytes, the phase-1 barrier (vision and classification results, or the
exception it raised), and the phase-2 barrier (price estimate and
description, or the exception observed at the join). -/
structure OrchOracle where
  encode : List ℕ → String
  run_phase1 : List String →
    Except String (List (String × PyVal) × List (String × PyVal))
  run_phase2 : List String → List (String × PyVal) → List (String × PyVal) →
    Except String (Estimate × String)

/-- Model of `analyze_images` (orchestrator.py lines 125-276). -/
def analyze_images (images_bytes : List (List ℕ)) (o : OrchOracle) : AnalysisResponse :=
  if images_bytes.isEmpty then
    { status := "needs_user_input"
      confidence_warnings :=
        [{ field := "images", confidence := "low", reason := "Нет загруженных фото" }] }
  else
    let images_b64 := images_bytes.map o.encode
    match o.run_phase1 images_b64 with
    | .error e =>
      { status := "error"
        confidence_warnings :=
          [{ field := "agents", confidence := "low",
             reason := "Ошибка выполнения агентов: " ++ e }] }
    | .ok (vd, cd) =>
      let car_identity := mkCarIdentity cd vd
      let visual_condition := mkVisualCondition vd
      let technical_assumptions := mkTechnicalAssumptions vd
      let pe_desc :=
        match o.run_phase2 images_b64 vd cd with
        | .ok r => r
        | .error e => (errEstimate e, "")
      { car_identity := car_identity
        visual_condition := visual_condition
        technical_assumptions := technical_assumptions
        price_estimation := mapPriceEstimation pe_desc.1
        generated_description := pe_desc.2
        confidence_warnings :=
          _confidence_warnings (.vDict cd) (.vDict vd) (estToPyVal pe_desc.1)
        status := _decide_status (.vDict vd) (.vDict cd)
        vision_result := .vDict vd }

/-- An error/parse-error marker on a phase-1 output dict. -/
def errMarkerB (d : List (String × PyVal)) : Bool :=
  truthy (dGet d "_error") || truthy (dGet d "_parse_error")

/-- The perception free-text summary contains a rejection phrase. -/
def rejectionPhraseHit (vd : List (String × PyVal)) : Bool :=
  let raw_desc := ruLower (pyStr (pyOr (dGet vd "raw_text_description") (.vStr "")))
  strContains raw_desc "анализ невозможен" || strContains raw_desc "не содержит автомобиль"
    || strContains raw_desc "не соответствует задаче"

/-- The classification output explicitly signals failure with a reason. -/
def classificationFailed (cd : List (String × PyVal)) : Bool :=
  (pyStr (pyOr (dGet cd "status") (.vStr "")) == "failed") && truthy (dGet cd "failure_reason")

/-- Both brand and model are empty (falsy). -/
def brandModelEmpty (cd : List (String × PyVal)) : Bool :=
  !truthy (dGet cd "brand") && !truthy (dGet cd "model")

def sampleOrchOracleFail : OrchOracle :=
  { encode := fun _ => ""
    run_phase1 := fun _ => .ok ([], [])
    run_phase2 := fun _ _ _ => .error "boom" }

def c9classification : PyVal := .vDict []

def c9vision : PyVal := .vNone

def c9price : PyVal :=
  .vDict [("suggested_price", .vNone), ("missing_fields", .vList [.vStr "mileage"])]

/-! ### Theorems -/

theorem ratFloor_eq_intFloor (q : ℚ) : Rat.floor q = Int.floor q :=
  (Rat.floor_def' q).trans Rat.floor_def.symm

theorem qAdd_eq (a b : ℚ) : qAdd a b = a + b := by
  have ha : ((a.den : ℤ)) ≠ 0 := Int.natCast_ne_zero.mpr a.den_nz
  have hb : ((b.den : ℤ)) ≠ 0 := Int.natCast_ne_zero.mpr b.den_nz
  conv_rhs => rw [← Rat.num_divInt_den a, ← Rat.num_divInt_den b]
  rw [Rat.divInt_add_divInt _ _ ha hb, qAdd]

theorem qSub_eq (a b : ℚ) : qSub a b = a - b := by
  have ha : ((a.den : ℤ)) ≠ 0 := Int.natCast_ne_zero.mpr a.den_nz
  have hb : ((b.den : ℤ)) ≠ 0 := Int.natCast_ne_zero.mpr b.den_nz
  conv_rhs => rw [← Rat.num_divInt_den a, ← Rat.num_divInt_den b]
  rw [Rat.divInt_sub_divInt _ _ ha hb, qSub]

theorem qDiv_eq (a b : ℚ) : qDiv a b = a / b := by
  rw [qDiv, Rat.div_def']

theorem qAbs_eq (a : ℚ) : qAbs a = |a| := by
  unfold qAbs
  split
  · exact (abs_of_neg (by assumption)).symm
  · exact (abs_of_nonneg (le_of_not_lt (by assumption))).symm

theorem qSum_eq (l : List ℚ) : qSum l = l.sum := by
  induction l with
  | nil => rfl
  | cons x xs ih => simp [qSum, List.foldr_cons, qAdd_eq, List.sum_cons] at ih ⊢; rw [ih]

theorem meanAbsoluteError_nonneg (a b : List ℚ) : 0 ≤ meanAbsoluteError a b := by
  unfold meanAbsoluteError
  rw [qDiv_eq, qSum_eq]
  apply div_nonneg
  · apply List.sum_nonneg
    intro x hx
    obtain ⟨p, _, rfl⟩ := List.mem_map.mp hx
    rw [qAbs_eq]
    exact abs_nonneg _
  · exact_mod_cast Nat.zero_le _

theorem pyRound_nonneg {q : ℚ} (h : 0 ≤ q) : 0 ≤ pyRound q := by
  unfold pyRound
  have hf : (0 : ℤ) ≤ Rat.floor q := by
    rw [ratFloor_eq_intFloor]; exact Int.floor_nonneg.mpr h
  dsimp only
  split
  · exact hf
  · split
    · omega
    · split
      · exact hf
      · omega

theorem ite_singleton_append {α : Type} (c : Prop) [Decidable c] (a : α) (l : List α) :
    (if c then [a] else []) ++ l = if c then a :: l else l := by
  split <;> simp

theorem ite_cons_append {α : Type} (c : Prop) [Decidable c] (a : α) (l rest : List α) :
    (if c then a :: l else l) ++ rest = if c then a :: (l ++ rest) else l ++ rest := by
  split <;> simp

theorem fieldIsMissing_brand (row : PricingRow) :
    fieldIsMissing row "brand" = (pyStrip row.brand == "") := rfl

theorem fieldIsMissing_model (row : PricingRow) :
    fieldIsMissing row "model" = (pyStrip row.model == "") := rfl

theorem fieldIsMissing_body_type (row : PricingRow) :
    fieldIsMissing row "body_type" = (pyStrip row.body_type == "") := rfl

theorem fieldIsMissing_color (row : PricingRow) :
    fieldIsMissing row "color" = (pyStrip row.color == "") := rfl

theorem fieldIsMissing_swp (row : PricingRow) :
    fieldIsMissing row "steering_wheel_position" =
      !(pyStrip row.steering_wheel_position == "left" || pyStrip row.steering_wheel_position == "right") := rfl

theorem fieldIsMissing_year (row : PricingRow) :
    fieldIsMissing row "year" = row.year.isNone := rfl

theorem fieldIsMissing_engine_capacity (row : PricingRow) :
    fieldIsMissing row "engine_capacity" = row.engine_capacity.isNone := rfl

theorem fieldIsMissing_transmission (row : PricingRow) :
    fieldIsMissing row "transmission" = (pyStrip row.transmission == "") := rfl

theorem fieldIsMissing_drive_type (row : PricingRow) :
    fieldIsMissing row "drive_type" = (pyStrip row.drive_type == "") := rfl

theorem fieldIsMissing_mileage (row : PricingRow) :
    fieldIsMissing row "mileage" = row.mileage.isNone := rfl

theorem fieldIsMissing_damage_flag (row : PricingRow) :
    fieldIsMissing row "damage_flag" = (pyStrip row.damage_flag == "") := rfl

theorem checkMissing_eq_filter (row : PricingRow) :
    checkMissing row = REQUIRED_FOR_PRICING.filter (fieldIsMissing row) := by
  simp only [REQUIRED_FOR_PRICING, List.filter_cons, List.filter_nil, checkMissing,
    fieldIsMissing_brand, fieldIsMissing_model, fieldIsMissing_body_type, fieldIsMissing_color,
    fieldIsMissing_swp, fieldIsMissing_year, fieldIsMissing_engine_capacity,
    fieldIsMissing_transmission, fieldIsMissing_drive_type, fieldIsMissing_mileage,
    fieldIsMissing_damage_flag, List.append_assoc, List.nil_append, List.append_nil,
    ite_singleton_append, ite_cons_append]

/-- The fields a successful estimate must carry, with `m` the raw held-out
MAE before the reported rounding. -/
theorem trainAndScore_shape (o : PricingOracle) (rows : List GenRow) (log : List ℚ) :
    (∃ m : ℚ, 0 ≤ m ∧
      (trainAndScore o rows log).1.suggested_price = some (pyRound o.predictSubject) ∧
      (trainAndScore o rows log).1.min_price
        = some (max 0 (pyRound ((pyRound o.predictSubject : ℚ) - m))) ∧
      (trainAndScore o rows log).1.max_price
        = some (pyRound ((pyRound o.predictSubject : ℚ) + m)) ∧
      (trainAndScore o rows log).1.mae = some ((pyRound m : ℤ) : ℚ) ∧
      (trainAndScore o rows log).1.missing_fields = [] ∧
      (trainAndScore o rows log).1.reason = none ∧
      (trainAndScore o rows log).1.error = none) ∨
    ((trainAndScore o rows log).1.suggested_price = none ∧
      (trainAndScore o rows log).1.min_price = none ∧
      (trainAndScore o rows log).1.max_price = none ∧
      (trainAndScore o rows log).1.mae = none ∧
      (trainAndScore o rows log).1.reason ≠ none) := by
  by_cases h1 : dfHasCol rows "price" = false ∨ rows.length < 10
  · right; simp [trainAndScore, h1]
  · by_cases h2 : (priceY rows).length < 10
    · right; simp [trainAndScore, h1, h2]
    · left
      refine ⟨meanAbsoluteError ((o.splitTestY (priceY rows)).map fun n => (n : ℚ)) o.predTest,
        meanAbsoluteError_nonneg _ _, ?_, ?_, ?_, ?_, ?_, ?_, ?_⟩ <;>
        simp [trainAndScore, h1, h2, qSub_eq, qAdd_eq]

theorem afterLoop_shape (o : PricingOracle) (rows : List GenRow) (le : String) (log : List ℚ) :
    (∃ m : ℚ, 0 ≤ m ∧
      (afterLoop o rows le log).1.suggested_price = some (pyRound o.predictSubject) ∧
      (afterLoop o rows le log).1.min_price
        = some (max 0 (pyRound ((pyRound o.predictSubject : ℚ) - m))) ∧
      (afterLoop o rows le log).1.max_price
        = some (pyRound ((pyRound o.predictSubject : ℚ) + m)) ∧
      (afterLoop o rows le log).1.mae = some ((pyRound m : ℤ) : ℚ) ∧
      (afterLoop o rows le log).1.missing_fields = [] ∧
      (afterLoop o rows le log).1.reason = none ∧
      (afterLoop o rows le log).1.error = none) ∨
    ((afterLoop o rows le log).1.suggested_price = none ∧
      (afterLoop o rows le log).1.min_price = none ∧
      (afterLoop o rows le log).1.max_price = none ∧
      (afterLoop o rows le log).1.mae = none ∧
      ((afterLoop o rows le log).1.reason ≠ none ∨ (afterLoop o rows le log).1.error ≠ none)) := by
  by_cases h : rows = [] ∨ rows.length < 10
  · right; simp [afterLoop, h]
  · have he : afterLoop o rows le log = trainAndScore o rows log := by
      simp [afterLoop, h]
    rw [he]
    rcases trainAndScore_shape o rows log with h' | h'
    · exact Or.inl h'
    · exact Or.inr ⟨h'.1, h'.2.1, h'.2.2.1, h'.2.2.2.1, Or.inl h'.2.2.2.2⟩

theorem attemptTwo_shape (o : PricingOracle) (le : String) :
    (∃ m : ℚ, 0 ≤ m ∧
      (attemptTwo o le).1.suggested_price = some (pyRound o.predictSubject) ∧
      (attemptTwo o le).1.min_price
        = some (max 0 (pyRound ((pyRound o.predictSubject : ℚ) - m))) ∧
      (attemptTwo o le).1.max_price
        = some (pyRound ((pyRound o.predictSubject : ℚ) + m)) ∧
      (attemptTwo o le).1.mae = some ((pyRound m : ℤ) : ℚ) ∧
      (attemptTwo o le).1.missing_fields = [] ∧
      (attemptTwo o le).1.reason = none ∧
      (attemptTwo o le).1.error = none) ∨
    ((attemptTwo o le).1.suggested_price = none ∧
      (attemptTwo o le).1.min_price = none ∧
      (attemptTwo o le).1.max_price = none ∧
      (attemptTwo o le).1.mae = none ∧
      ((attemptTwo o le).1.reason ≠ none ∨ (attemptTwo o le).1.error ≠ none)) := by
  rcases hA : runAttempt o 1 with rs | _ | m
  · by_cases hc : rs ≠ [] ∧ 10 ≤ rs.length
    · have he : attemptTwo o le = afterLoop o rs le [mkRat 7 10, mkRat 9 10] := by
        simp [attemptTwo, hA, hc]
      rw [he]; exact afterLoop_shape o _ _ _
    · have he : attemptTwo o le
          = afterLoop o rs (if rs.isEmpty then "empty data" else "too few rows")
              [mkRat 7 10, mkRat 9 10] := by
        simp [attemptTwo, hA, hc]
      rw [he]; exact afterLoop_shape o _ _ _
  · right; simp [attemptTwo, hA]
  · right; simp [attemptTwo, hA]

/-- Every `run_pricing` result is either a fully-populated success (whose
range fields are derived from the raw MAE `m`) or a failure value with null
prices and at least one of a non-empty `missing_fields`, a `_reason` or an
`_error`. -/
theorem run_pricing_shape (inp : PricingInput) (o : PricingOracle) :
    (∃ m : ℚ, 0 ≤ m ∧
      (run_pricing inp o).suggested_price = some (pyRound o.predictSubject) ∧
      (run_pricing inp o).min_price
        = some (max 0 (pyRound ((pyRound o.predictSubject : ℚ) - m))) ∧
      (run_pricing inp o).max_price
        = some (pyRound ((pyRound o.predictSubject : ℚ) + m)) ∧
      (run_pricing inp o).mae = some ((pyRound m : ℤ) : ℚ) ∧
      (run_pricing inp o).missing_fields = [] ∧
      (run_pricing inp o).reason = none ∧
      (run_pricing inp o).error = none) ∨
    ((run_pricing inp o).suggested_price = none ∧
      (run_pricing inp o).min_price = none ∧
      (run_pricing inp o).max_price = none ∧
      (run_pricing inp o).mae = none ∧
      ((run_pricing inp o).missing_fields ≠ [] ∨ (run_pricing inp o).reason ≠ none ∨
        (run_pricing inp o).error ≠ none)) := by
  by_cases hm : checkMissing (mkRow inp) ≠ []
  · right; simp [run_pricing, runPricingTrace, hm]
  · have hmiss : checkMissing (mkRow inp) = [] := not_not.mp hm
    rcases hA : runAttempt o 0 with rs | _ | m
    · by_cases hc : rs ≠ [] ∧ 10 ≤ rs.length
      · have he : run_pricing inp o = (afterLoop o rs "empty data" [mkRat 7 10]).1 := by
          simp [run_pricing, runPricingTrace, hmiss, hA, hc]
        rw [he]
        rcases afterLoop_shape o rs "empty data" [mkRat 7 10] with h | h
        · exact Or.inl h
        · exact Or.inr ⟨h.1, h.2.1, h.2.2.1, h.2.2.2.1, Or.inr h.2.2.2.2⟩
      · have he : run_pricing inp o
            = (attemptTwo o (if rs.isEmpty then "empty data" else "too few rows")).1 := by
          simp [run_pricing, runPricingTrace, hmiss, hA, hc]
        rw [he]
        rcases attemptTwo_shape o _ with h | h
        · exact Or.inl h
        · exact Or.inr ⟨h.1, h.2.1, h.2.2.1, h.2.2.2.1, Or.inr h.2.2.2.2⟩
    · have he : run_pricing inp o = (attemptTwo o "failed to parse synthetic data").1 := by
        simp [run_pricing, runPricingTrace, hmiss, hA]
      rw [he]
      rcases attemptTwo_shape o _ with h | h
      · exact Or.inl h
      · exact Or.inr ⟨h.1, h.2.1, h.2.2.1, h.2.2.2.1, Or.inr h.2.2.2.2⟩
    · have he : run_pricing inp o = (attemptTwo o m).1 := by
        simp [run_pricing, runPricingTrace, hmiss, hA]
      rw [he]
      rcases attemptTwo_shape o _ with h | h
      · exact Or.inl h
      · exact Or.inr ⟨h.1, h.2.1, h.2.2.1, h.2.2.2.1, Or.inr h.2.2.2.2⟩

/-- C1: every `PriceEstimate` returned by `run_pricing` carries exactly one
of a non-null `suggested_price` or a failure indication (non-empty
`missing_fields`, or a `_reason`/`_error` string) — never both, never
neither. -/
theorem C1_price_estimate_mutual_exclusivity (inp : PricingInput) (o : PricingOracle) :
    ((run_pricing inp o).suggested_price.isSome = true ∧
      (run_pricing inp o).missing_fields = [] ∧
      (run_pricing inp o).reason = none ∧ (run_pricing inp o).error = none) ∨
    ((run_pricing inp o).suggested_price = none ∧
      ((run_pricing inp o).missing_fields ≠ [] ∨ (run_pricing inp o).reason ≠ none ∨
        (run_pricing inp o).error ≠ none)) := by
  rcases run_pricing_shape inp o with ⟨m, hm0, hs, hmin, hmax, hmae, hmf, hr, he⟩ |
    ⟨hs, _, _, _, hrest⟩
  · left; exact ⟨by rw [hs]; rfl, hmf, hr, he⟩
  · right; exact ⟨hs, hrest⟩

/-- C1 witness: the exclusivity disjunction instantiated at a concrete
complete input and oracle. -/
theorem C1_witness :
    ((run_pricing sampleInput sampleOracle).suggested_price.isSome = true ∧
      (run_pricing sampleInput sampleOracle).missing_fields = [] ∧
      (run_pricing sampleInput sampleOracle).reason = none ∧
      (run_pricing sampleInput sampleOracle).error = none) ∨
    ((run_pricing sampleInput sampleOracle).suggested_price = none ∧
      ((run_pricing sampleInput sampleOracle).missing_fields ≠ [] ∨
        (run_pricing sampleInput sampleOracle).reason ≠ none ∨
        (run_pricing sampleInput sampleOracle).error ≠ none)) :=
  C1_price_estimate_mutual_exclusivity sampleInput sampleOracle

/-- C2 counterexample: with held-out MAE ½ and raw prediction 101 the code
reports `mae = 0` (rounded) but computes `min_price`/`max_price` from the
unrounded ½, so `min_price = 100 ≠ max(0, 101 - 0)` and
`max_price = 102 ≠ 101 + 0` — the claimed equalities against the reported
`mae` field fail. -/
theorem C2_counterexample :
    (run_pricing sampleInput sampleOracle).suggested_price = some 101 ∧
    (run_pricing sampleInput sampleOracle).mae = some 0 ∧
    (run_pricing sampleInput sampleOracle).min_price = some 100 ∧
    (run_pricing sampleInput sampleOracle).max_price = some 102 ∧
    (run_pricing sampleInput sampleOracle).min_price ≠ some (max 0 (101 - 0)) ∧
    (run_pricing sampleInput sampleOracle).max_price ≠ some (101 + 0) := by
  refine ⟨by decide, by decide, by decide, by decide, by decide, by decide⟩

/-- C2 amended: for every successful estimate there is a raw held-out MAE
`m ≥ 0` with `min_price = max(0, round(suggested_price - m))`,
`max_price = round(suggested_price + m)` (banker's rounding, as Python's
`round`), and the reported `mae` field is `m` rounded to an integer; the
reported prices are integers by construction. -/
theorem C2_amended_range_invariant (inp : PricingInput) (o : PricingOracle) (s : ℤ)
    (h : (run_pricing inp o).suggested_price = some s) :
    ∃ m : ℚ, 0 ≤ m ∧
      (run_pricing inp o).min_price = some (max 0 (pyRound ((s : ℚ) - m))) ∧
      (run_pricing inp o).max_price = some (pyRound ((s : ℚ) + m)) ∧
      (run_pricing inp o).mae = some ((pyRound m : ℤ) : ℚ) := by
  rcases run_pricing_shape inp o with ⟨m, hm0, hs, hmin, hmax, hmae, _, _, _⟩ | ⟨hs, _⟩
  · have hs' : s = pyRound o.predictSubject := by
      rw [h] at hs; exact Option.some.inj hs
    subst hs'
    exact ⟨m, hm0, hmin, hmax, hmae⟩
  · rw [hs] at h; cases h

/-- C2 amended witness: the amended invariant at the concrete oracle of the
counterexample. -/
theorem C2_amended_witness :
    ∃ m : ℚ, 0 ≤ m ∧
      (run_pricing sampleInput sampleOracle).min_price
        = some (max 0 (pyRound ((101 : ℚ) - m))) ∧
      (run_pricing sampleInput sampleOracle).max_price = some (pyRound ((101 : ℚ) + m)) ∧
      (run_pricing sampleInput sampleOracle).mae = some ((pyRound m : ℤ) : ℚ) :=
  C2_amended_range_invariant sampleInput sampleOracle 101 (by decide)

/-- C3 counterexample: nothing clamps `suggested_price` or `max_price`; when
the fitted regressor extrapolates to a negative raw prediction the returned
`suggested_price` and `max_price` are negative. -/
theorem C3_counterexample :
    (run_pricing sampleInput sampleOracleNeg).suggested_price = some (-5) ∧
    (run_pricing sampleInput sampleOracleNeg).max_price = some (-4) ∧
    (run_pricing sampleInput sampleOracleNeg).min_price = some 0 ∧
    ((-5 : ℤ) < 0) ∧ ((-4 : ℤ) < 0) := by
  refine ⟨by decide, by decide, by decide, by decide, by decide⟩

/-- C3 amended: `min_price`, when non-null, is always ≥ 0 (it is clamped at
zero); `suggested_price` and `max_price` are not clamped, but are ≥ 0
whenever the regressor's raw prediction is ≥ 0. -/
theorem C3_amended_nonnegativity (inp : PricingInput) (o : PricingOracle) :
    (∀ m : ℤ, (run_pricing inp o).min_price = some m → 0 ≤ m) ∧
    (0 ≤ o.predictSubject →
      (∀ s : ℤ, (run_pricing inp o).suggested_price = some s → 0 ≤ s) ∧
      (∀ x : ℤ, (run_pricing inp o).max_price = some x → 0 ≤ x)) := by
  rcases run_pricing_shape inp o with ⟨m, hm0, hs, hmin, hmax, hmae, _, _, _⟩ |
    ⟨hs, hmin, hmax, _, _⟩
  · constructor
    · intro v hv
      rw [hmin] at hv
      have := Option.some.inj hv
      omega
    · intro hp
      have hsug : (0 : ℤ) ≤ pyRound o.predictSubject := pyRound_nonneg hp
      constructor
      · intro s hs'
        rw [hs] at hs'
        have := Option.some.inj hs'
        omega
      · intro x hx
        rw [hmax] at hx
        have hx' := Option.some.inj hx
        have hcast : (0 : ℚ) ≤ ((pyRound o.predictSubject : ℤ) : ℚ) + m := by
          have : (0 : ℚ) ≤ ((pyRound o.predictSubject : ℤ) : ℚ) := by exact_mod_cast hsug
          linarith
        have := pyRound_nonneg hcast
        omega
  · refine ⟨fun v hv => ?_, fun _ => ⟨fun s hs' => ?_, fun x hx => ?_⟩⟩
    · rw [hmin] at hv; cases hv
    · rw [hs] at hs'; cases hs'
    · rw [hmax] at hx; cases hx

/-- C3 amended witness: the clamp at the concrete successful estimate. -/
theorem C3_amended_witness :
    (run_pricing sampleInput sampleOracle).min_price = some 100 ∧ (0 : ℤ) ≤ 100 :=
  ⟨by decide, (C3_amended_nonnegativity sampleInput sampleOracle).1 100 (by decide)⟩

/-- C4: a subject record failing the completeness check short-circuits:
the estimate lists exactly the required fields that are empty/invalid (in
the fixed order), all price fields and the MAE are null, no generation call
is made (empty call trace), and the result is the same for any two oracles
— it cannot depend on the generative service or on training. -/
theorem C4_missing_fields_short_circuit (inp : PricingInput) (o o' : PricingOracle)
    (h : checkMissing (mkRow inp) ≠ []) :
    runPricingTrace inp o =
      ({ min_price := none, max_price := none, suggested_price := none, mae := none,
         missing_fields := REQUIRED_FOR_PRICING.filter (fieldIsMissing (mkRow inp)) }, []) ∧
    runPricingTrace inp o = runPricingTrace inp o' := by
  have h1 : ∀ oo : PricingOracle, runPricingTrace inp oo =
      ({ min_price := none, max_price := none, suggested_price := none, mae := none,
         missing_fields := checkMissing (mkRow inp) }, []) := by
    intro oo
    simp [runPricingTrace, h]
  refine ⟨?_, by rw [h1 o, h1 o']⟩
  rw [h1 o, checkMissing_eq_filter]

/-- C4 witness: `mileage=None` yields `missing_fields = ["mileage"]`, null
prices and an empty generation-call trace. -/
theorem C4_witness :
    runPricingTrace sampleInputNoMileage sampleOracle =
      ({ min_price := none, max_price := none, suggested_price := none, mae := none,
         missing_fields := ["mileage"] }, []) := by
  have h := C4_missing_fields_short_circuit sampleInputNoMileage sampleOracle failingOracle
    (by decide)
  rw [h.1]
  decide

/-- C6 counterexample: the back-fill for a feature column missing from the
generated corpus takes `row.get(col, ...)`, i.e. the subject record's own
value — here `"red"` for the missing categorical column `color` — not the
claimed neutral empty string. -/
theorem C6_counterexample :
    ("color" ∈ FEATURE_COLUMNS) ∧
    dfHasCol sampleRows "color" = false ∧
    backfillValue (mkRow sampleInput) "color" = .vStr "red" ∧
    PyVal.vStr "red" ≠ PyVal.vStr "" := by
  refine ⟨by decide, by decide, rfl, fun hcon => ?_⟩
  exact absurd (PyVal.vStr.inj hcon) (by decide)

/-- C6 amended: a declared feature column missing from the corpus is
back-filled with the subject record's value for that column; the neutral
default (0 / empty string) is dead code because the subject row always
contains every declared feature column. -/
theorem C6_amended_backfill_from_subject (inp : PricingInput) (col : String)
    (h : col ∈ FEATURE_COLUMNS) :
    ∃ v : PyVal, rowVal (mkRow inp) col = some v ∧ backfillValue (mkRow inp) col = v := by
  fin_cases h <;> exact ⟨_, rfl, rfl⟩

/-- C6 amended witness: the subject's `color` value is what gets
back-filled. -/
theorem C6_amended_witness :
    ∃ v : PyVal, rowVal (mkRow sampleInput) "color" = some v ∧
      backfillValue (mkRow sampleInput) "color" = v :=
  C6_amended_backfill_from_subject sampleInput "color" (by decide)

theorem mkRat_7_10 : mkRat 7 10 = (7/10 : ℚ) := by
  rw [Rat.mkRat_eq_divInt, Rat.divInt_eq_div]; norm_num

theorem mkRat_9_10 : mkRat 9 10 = (9/10 : ℚ) := by
  rw [Rat.mkRat_eq_divInt, Rat.divInt_eq_div]; norm_num

theorem trainAndScore_log (o : PricingOracle) (rows : List GenRow) (log : List ℚ) :
    (trainAndScore o rows log).2 = log := by
  by_cases h1 : dfHasCol rows "price" = false ∨ rows.length < 10
  · simp [trainAndScore, h1]
  · by_cases h2 : (priceY rows).length < 10 <;> simp [trainAndScore, h1, h2]

theorem afterLoop_log (o : PricingOracle) (rows : List GenRow) (le : String) (log : List ℚ) :
    (afterLoop o rows le log).2 = log := by
  by_cases h : rows = [] ∨ rows.length < 10
  · simp [afterLoop, h]
  · simp [afterLoop, h, trainAndScore_log]

theorem attemptTwo_log (o : PricingOracle) (le : String) :
    (attemptTwo o le).2 = [mkRat 7 10, mkRat 9 10] := by
  rcases hA : runAttempt o 1 with rs | _ | m
  · by_cases hc : rs ≠ [] ∧ 10 ≤ rs.length <;> simp [attemptTwo, hA, hc, afterLoop_log]
  · simp [attemptTwo, hA]
  · simp [attemptTwo, hA]

theorem not_attemptOK_rows {rs : List GenRow} (h : attemptOK (.rows rs) = false) :
    rs = [] ∨ rs.length < 10 := by
  simp [attemptOK] at h
  by_cases he : rs = []
  · exact Or.inl he
  · exact Or.inr (h he)

/-- When the second attempt also fails, `attemptTwo` yields a failure value:
null prices and a `_reason` or `_error` string. -/
theorem attemptTwo_failed (o : PricingOracle) (le : String)
    (h1 : attemptOK (runAttempt o 1) = false) :
    (attemptTwo o le).1.suggested_price = none ∧ (attemptTwo o le).1.min_price = none ∧
    (attemptTwo o le).1.max_price = none ∧ (attemptTwo o le).1.mae = none ∧
    ((attemptTwo o le).1.reason ≠ none ∨ (attemptTwo o le).1.error ≠ none) := by
  rcases hA : runAttempt o 1 with rs | _ | m
  · rw [hA] at h1
    have hbad := not_attemptOK_rows h1
    have hc : ¬(rs ≠ [] ∧ 10 ≤ rs.length) := by
      rcases hbad with h | h
      · simp [h]
      · intro hcon; omega
    simp [attemptTwo, hA, hc, afterLoop, hbad]
  · simp [attemptTwo, hA]
  · simp [attemptTwo, hA]

/-- The generation-call trace of `run_pricing` on a complete record: one
call at temperature 0.7 when the first attempt is accepted, otherwise
exactly one retry at temperature 0.9. -/
theorem runPricingTrace_log (inp : PricingInput) (o : PricingOracle)
    (h : checkMissing (mkRow inp) = []) :
    (attemptOK (runAttempt o 0) = true ∧ (runPricingTrace inp o).2 = [mkRat 7 10]) ∨
    (attemptOK (runAttempt o 0) = false ∧
      (runPricingTrace inp o).2 = [mkRat 7 10, mkRat 9 10]) := by
  rcases hA : runAttempt o 0 with rs | _ | m
  · by_cases hc : rs ≠ [] ∧ 10 ≤ rs.length
    · left
      constructor
      · simp [attemptOK, hc.1, hc.2]
      · simp [runPricingTrace, h, hA, hc, afterLoop_log]
    · right
      constructor
      · rcases not_and_or.mp hc with h' | h'
        · simp [attemptOK, not_not.mp h']
        · have : rs.length < 10 := Nat.lt_of_not_le h'
          simp [attemptOK]; omega
      · simp [runPricingTrace, h, hA, hc, attemptTwo_log]
  · right; exact ⟨rfl, by simp [runPricingTrace, h, hA, attemptTwo_log]⟩
  · right; exact ⟨rfl, by simp [runPricingTrace, h, hA, attemptTwo_log]⟩

/-- When the first attempt fails, `run_pricing` proceeds through
`attemptTwo` with some last-error string. -/
theorem run_pricing_after_first_failure (inp : PricingInput) (o : PricingOracle)
    (h : checkMissing (mkRow inp) = []) (h0 : attemptOK (runAttempt o 0) = false) :
    ∃ le : String, run_pricing inp o = (attemptTwo o le).1 := by
  rcases hA : runAttempt o 0 with rs | _ | m
  · rw [hA] at h0
    have hbad := not_attemptOK_rows h0
    have hc : ¬(rs ≠ [] ∧ 10 ≤ rs.length) := by
      rcases hbad with h' | h'
      · simp [h']
      · intro hcon; omega
    exact ⟨if rs = [] then "empty data" else "too few rows",
      by simp [run_pricing, runPricingTrace, h, hA, hc]⟩
  · exact ⟨"failed to parse synthetic data", by simp [run_pricing, runPricingTrace, h, hA]⟩
  · exact ⟨m, by simp [run_pricing, runPricingTrace, h, hA]⟩

/-- C7: on a complete record the generator makes at most two attempts; an
accepted first batch means exactly one call at temperature 0.7, a failed
first attempt (unparseable response, exception, or fewer than 10 rows)
means exactly two calls with the retry at the increased temperature 0.9,
and when both attempts fail the function still returns a value — null
prices with a `_reason`/`_error` string — rather than raising. -/
theorem C7_generation_retry_policy (inp : PricingInput) (o : PricingOracle)
    (h : checkMissing (mkRow inp) = []) :
    (runPricingTrace inp o).2.length ≤ 2 ∧
    (attemptOK (runAttempt o 0) = true → (runPricingTrace inp o).2 = [7/10]) ∧
    (attemptOK (runAttempt o 0) = false →
      (runPricingTrace inp o).2 = [7/10, 9/10]) ∧
    (attemptOK (runAttempt o 0) = false → attemptOK (runAttempt o 1) = false →
      (run_pricing inp o).suggested_price = none ∧ (run_pricing inp o).min_price = none ∧
      (run_pricing inp o).max_price = none ∧ (run_pricing inp o).mae = none ∧
      ((run_pricing inp o).reason ≠ none ∨ (run_pricing inp o).error ≠ none)) := by
  have hlog := runPricingTrace_log inp o h
  refine ⟨?_, ?_, ?_, ?_⟩
  · rcases hlog with ⟨_, hl⟩ | ⟨_, hl⟩ <;> simp [hl]
  · intro ht
    rcases hlog with ⟨_, hl⟩ | ⟨hf, _⟩
    · rw [hl, mkRat_7_10]
    · rw [ht] at hf; cases hf
  · intro hf
    rcases hlog with ⟨ht, _⟩ | ⟨_, hl⟩
    · rw [hf] at ht; cases ht
    · rw [hl, mkRat_7_10, mkRat_9_10]
  · intro h0 h1
    obtain ⟨le, hle⟩ := run_pricing_after_first_failure inp o h h0
    rw [hle]
    exact attemptTwo_failed o le h1

/-- C7 witness: the failing oracle exercises the two-call trace and the
explicit failure value. -/
theorem C7_witness :
    (runPricingTrace sampleInput failingOracle).2 = [7/10, 9/10] ∧
    (run_pricing sampleInput failingOracle).suggested_price = none ∧
    ((run_pricing sampleInput failingOracle).reason ≠ none ∨
      (run_pricing sampleInput failingOracle).error ≠ none) := by
  have h := C7_generation_retry_policy sampleInput failingOracle (by decide)
  have h2 := h.2.2.2 (by decide) (by decide)
  exact ⟨h.2.2.1 (by decide), h2.1, h2.2.2.2.2⟩

theorem decide_status_normal_form (vd cd : List (String × PyVal)) :
    _decide_status (.vDict vd) (.vDict cd) =
      (if errMarkerB vd then "error"
       else if errMarkerB cd then "error"
       else if rejectionPhraseHit vd then "needs_user_input"
       else if classificationFailed cd then "needs_user_input"
       else if brandModelEmpty cd then "needs_user_input"
       else "ok") := rfl

/-- C5: for dict-shaped phase-1 outputs, the resolved status is `error` iff
either output carries an error/parse-error marker; absent markers it is
`needs_user_input` iff a rejection phrase occurs in the perception summary,
or the classification signals failure with a reason, or both brand and
model are empty; otherwise it is `ok`.  In particular a perception `_error`
wins over a valid brand/model (rule 1 beats rule 3). -/
theorem C5_status_precedence (vd cd : List (String × PyVal)) :
    (_decide_status (.vDict vd) (.vDict cd) = "error"
      ↔ (errMarkerB vd || errMarkerB cd) = true) ∧
    ((errMarkerB vd || errMarkerB cd) = false →
      (_decide_status (.vDict vd) (.vDict cd) = "needs_user_input"
        ↔ (rejectionPhraseHit vd || classificationFailed cd || brandModelEmpty cd) = true)) ∧
    ((errMarkerB vd || errMarkerB cd) = false →
      (rejectionPhraseHit vd || classificationFailed cd || brandModelEmpty cd) = false →
      _decide_status (.vDict vd) (.vDict cd) = "ok") ∧
    (truthy (dGet vd "_error") = true → truthy (dGet cd "brand") = true →
      truthy (dGet cd "model") = true →
      _decide_status (.vDict vd) (.vDict cd) = "error") := by
  rw [decide_status_normal_form]
  refine ⟨?_, ?_, ?_, ?_⟩
  · rcases h1 : errMarkerB vd <;> rcases h2 : errMarkerB cd <;>
      rcases h3 : rejectionPhraseHit vd <;> rcases h4 : classificationFailed cd <;>
      rcases h5 : brandModelEmpty cd <;> simp
  · intro hm
    rcases (Bool.or_eq_false_iff.mp hm) with ⟨h1, h2⟩
    rcases h3 : rejectionPhraseHit vd <;> rcases h4 : classificationFailed cd <;>
      rcases h5 : brandModelEmpty cd <;> simp [h1, h2]
  · intro hm hn
    rcases (Bool.or_eq_false_iff.mp hm) with ⟨h1, h2⟩
    rcases (Bool.or_eq_false_iff.mp hn) with ⟨h34, h5⟩
    rcases (Bool.or_eq_false_iff.mp h34) with ⟨h3, h4⟩
    simp [h1, h2, h3, h4, h5]
  · intro he _ _
    have h1 : errMarkerB vd = true := by simp [errMarkerB, he]
    simp [h1]

/-- C5 witness: perception `_error` set, classification with valid brand
and model — resolved status is `error`. -/
theorem C5_witness :
    _decide_status (.vDict [("_error", PyVal.vStr "boom")])
      (.vDict [("brand", PyVal.vStr "Toyota"), ("model", PyVal.vStr "Camry")]) = "error" :=
  (C5_status_precedence [("_error", PyVal.vStr "boom")]
    [("brand", PyVal.vStr "Toyota"), ("model", PyVal.vStr "Camry")]).2.2.2
    (by decide) (by decide) (by decide)

/-- C8: if the phase-2 barrier raises with message `e` (non-empty, as
`str(exc)` of a real exception), the response substitutes a price estimate
whose only populated field is `error_message = e` and an empty description,
while the phase-1-derived fields — car identity, visual condition,
technical assumptions, the status resolved from the phase-1 outputs, and
the raw vision result — are still returned unchanged. -/
theorem C8_phase2_graceful_degradation (images : List (List ℕ)) (o : OrchOracle)
    (vd cd : List (String × PyVal)) (e : String)
    (h1 : images ≠ [])
    (h2 : o.run_phase1 (images.map o.encode) = .ok (vd, cd))
    (h3 : o.run_phase2 (images.map o.encode) vd cd = .error e)
    (h4 : e ≠ "") :
    analyze_images images o =
      { car_identity := mkCarIdentity cd vd
        visual_condition := mkVisualCondition vd
        technical_assumptions := mkTechnicalAssumptions vd
        price_estimation := { error_message := some e }
        generated_description := ""
        confidence_warnings :=
          _confidence_warnings (.vDict cd) (.vDict vd) (estToPyVal (errEstimate e))
        status := _decide_status (.vDict vd) (.vDict cd)
        vision_result := .vDict vd } := by
  have hne : images.isEmpty = false := by simp [h1]
  simp [analyze_images, hne, h2, h3, mapPriceEstimation, errEstimate, otruthy, h4]

/-- C8 witness: the degradation applied at a concrete failing phase 2. -/
theorem C8_witness :
    analyze_images [[0]] sampleOrchOracleFail =
      { car_identity := mkCarIdentity [] []
        visual_condition := mkVisualCondition []
        technical_assumptions := mkTechnicalAssumptions []
        price_estimation := { error_message := some "boom" }
        generated_description := ""
        confidence_warnings :=
          _confidence_warnings (.vDict []) (.vDict []) (estToPyVal (errEstimate "boom"))
        status := _decide_status (.vDict []) (.vDict [])
        vision_result := .vDict [] } :=
  C8_phase2_graceful_degradation [[0]] sampleOrchOracleFail [] [] "boom"
    (by decide) rfl rfl (by decide)

/-- C9 counterexample: with a non-dict perception value the `vision.get`
access faults inside the single `try`; the function returns only the
warnings accumulated before the fault, so the price warning — applicable at
this price estimate — is omitted even though the fault occurred in a
different warning's computation. -/
theorem C9_counterexample :
    _confidence_warnings c9classification c9vision c9price = [warnNoBrandModel] ∧
    warnNoPrice ∈ applicableWarnings c9classification c9vision c9price ∧
    warnNoPrice ∉ _confidence_warnings c9classification c9vision c9price := by
  refine ⟨rfl, by decide, by decide⟩

/-- C9 amended: warning generation never raises (it always returns a list),
and an internal fault truncates the warning list at the fault point: the
result is always a prefix of the applicable warnings, and it is the full
applicable list whenever all three inputs are dict-shaped (in which case no
access can fault). -/
theorem C9_amended_warning_truncation (c v p : PyVal) :
    (∃ t, _confidence_warnings c v p ++ t = applicableWarnings c v p) ∧
    (∀ (cd vd pd : List (String × PyVal)),
      _confidence_warnings (.vDict cd) (.vDict vd) (.vDict pd)
        = applicableWarnings (.vDict cd) (.vDict vd) (.vDict pd)) := by
  constructor
  · rcases c with _ | b | n | q | s | xs | cd
    case vDict =>
      rcases v with _ | b2 | n2 | q2 | s2 | xs2 | vd
      case vDict =>
        rcases p with _ | b3 | n3 | q3 | s3 | xs3 | pd
        case vDict =>
          exact ⟨[], by simp [_confidence_warnings, applicableWarnings, List.append_assoc]⟩
        all_goals exact ⟨[], by
          simp [_confidence_warnings, applicableWarnings, condNoPrice, dGet, truthy,
            List.append_assoc]⟩
      all_goals exact ⟨(if condNoPrice (match p with | .vDict pd => pd | _ => [])
          then [warnNoPrice] else []), by
        simp [_confidence_warnings, applicableWarnings, condLowInspection, dGet,
          List.append_assoc]⟩
    all_goals exact ⟨_, rfl⟩
  · intro cd vd pd
    simp [_confidence_warnings, applicableWarnings, List.append_assoc]

/-- C9 amended witness: the truncation property at the counterexample's
inputs. -/
theorem C9_amended_witness :
    ∃ t, _confidence_warnings c9classification c9vision c9price ++ t
      = applicableWarnings c9classification c9vision c9price :=
  (C9_amended_warning_truncation c9classification c9vision c9price).1

/-- C10: an empty image list returns `needs_user_input`, exactly one
low-confidence warning on the `images` field, all other fields at their
schema defaults, and — since the result is the same constant for every
oracle — no agent is called. -/
theorem C10_empty_image_list (o : OrchOracle) :
    analyze_images [] o =
      { car_identity := {}
        visual_condition := {}
        technical_assumptions := {}
        price_estimation := {}
        generated_description := ""
        confidence_warnings :=
          [{ field := "images", confidence := "low", reason := "Нет загруженных фото" }]
        status := "needs_user_input"
        vision_result := .vDict [] } := rfl
